import Mathlib

/-!
Verification of the grafana-exim migration tool (src/main.rs) against its
natural-language specification.

The development shallowly embeds the parts of the program the claims are
about:

* JSON documents (`serde_json::Value`) as the inductive `Json`, with JSON
  objects represented by association lists of string keys; `objGet`,
  `objInsert`, `objRemove` mirror `serde_json::Map::{get, insert, remove}`
  (key order is irrelevant to every claim, so all statements about object
  contents go through key lookup).
* The per-task bodies of the export and import loops as pure functions from
  a fetch result to a task outcome; a Rust `unwrap` on an absent value is
  the `panicked` outcome.
* The orchestration (which phases run in which order, which tasks run
  concurrently and where they are joined) as a set of event traces:
  `Shuffle` is the arbitrary interleaving that `tokio::spawn` allows between
  the spawned tasks of one join group, and a trace of the whole program is a
  concatenation of phase segments exactly as the code sequences them.
-/

set_option autoImplicit false

namespace GrafanaExim

/-- JSON values, mirroring `serde_json::Value`.  Numbers are modelled as
integers; no claim depends on fractional numbers.  Objects are association
lists of key-value pairs. -/
inductive Json where
  | null
  | bool (b : Bool)
  | num (n : Int)
  | str (s : String)
  | arr (elems : List Json)
  | obj (fields : List (String × Json))

/-- `Value::as_object` / `as_object_mut`: the fields of an object, `none`
otherwise. -/
def Json.getObj : Json → Option (List (String × Json))
  | .obj fields => some fields
  | _ => none

/-- `Value::as_array`: the elements of an array, `none` otherwise. -/
def Json.getArr : Json → Option (List Json)
  | .arr elems => some elems
  | _ => none

/-- `Value::as_str`: the string content, `none` otherwise. -/
def Json.asStr : Json → Option String
  | .str s => some s
  | _ => none

/-- `serde_json::Map::get`: first value stored under the key. -/
def objGet (fields : List (String × Json)) (k : String) : Option Json :=
  match fields with
  | [] => none
  | (k', v) :: rest => if k' = k then some v else objGet rest k

/-- `serde_json::Map::insert`: replace the value under the key in place if
present, append the pair otherwise. -/
def objInsert (fields : List (String × Json)) (k : String) (v : Json) :
    List (String × Json) :=
  match fields with
  | [] => [(k, v)]
  | (k', v') :: rest =>
      if k' = k then (k, v) :: rest else (k', v') :: objInsert rest k v

/-- `serde_json::Map::remove`: drop the pair stored under the key (keys of a
real `serde_json::Map` are unique; this recursion drops every occurrence). -/
def objRemove (fields : List (String × Json)) (k : String) :
    List (String × Json) :=
  match fields with
  | [] => []
  | (k', v) :: rest =>
      if k' = k then objRemove rest k else (k', v) :: objRemove rest k

/-- `Value::index` with a string key (`value["k"]`): the stored value when
`self` is an object containing the key, `Value::Null` otherwise. -/
def Json.idx (j : Json) (k : String) : Json :=
  match j with
  | .obj fields => (objGet fields k).getD .null
  | _ => .null

/-- Result of `client.get(endpoint).send().await` followed by
`response.json::<serde_json::Value>().await`: a transport error, a body that
is not valid JSON, or a parsed JSON value. -/
inductive FetchResult where
  | transportErr (msg : String)
  | badJson
  | json (j : Json)

/-- What one spawned export task amounts to: a written snapshot file, a
logged-and-skipped entity, a silently skipped entity, or a panic inside the
task. -/
inductive TaskOutcome where
  | saved (uid : String) (doc : Json)
  | errLogged (uid : String)
  | skippedSilent
  | panicked

def TaskOutcome.isPanic : TaskOutcome → Bool
  | .panicked => true
  | _ => false

/-- Lines 111-119 of `export_dashboards`: the in-place transformation of one
fetched dashboard object.  `none` models a panic of the surrounding task
(`Map` indexing with an absent key, or a failed `unwrap`): it needs `meta`
to be present with a string `folderUid` inside it and `dashboard` to be
present and an object.  On success: `dashboard.id` removed (an in-place
mutation of the nested object), top-level `meta` removed, top-level
`folderUid` and `overwrite` inserted. -/
def transformDash (fields : List (String × Json)) :
    Option (List (String × Json)) :=
  match objGet fields "meta" with
  | none => none
  | some meta =>
    match (meta.idx "folderUid").asStr with
    | none => none
    | some folderUid =>
      match objGet fields "dashboard" with
      | none => none
      | some dash =>
        match dash.getObj with
        | none => none
        | some dashFields =>
          let fields := objInsert fields "dashboard"
            (.obj (objRemove dashFields "id"))
          let fields := objRemove fields "meta"
          let fields := objInsert fields "folderUid" (.str folderUid)
          let fields := objInsert fields "overwrite" (.bool true)
          some fields

/-- Lines 107-127 of `export_dashboards`: the body of one spawned dashboard
fetch task.  A transport error is logged and the entity skipped; a body that
is not valid JSON is skipped without a log line; a JSON body that is not an
object, or whose transformation dereferences an absent field, panics inside
the task; otherwise the transformed document is written to
`dashboards/<uid>.json`. -/
def dashTaskBody (uid : String) (r : FetchResult) : TaskOutcome :=
  match r with
  | .transportErr _ => .errLogged uid
  | .badJson => .skippedSilent
  | .json j =>
    match j.getObj with
    | none => .panicked
    | some fields =>
      match transformDash fields with
      | none => .panicked
      | some out => .saved uid (.obj out)

/-- Lines 152-166 of `export_dashboards`: the body of one spawned folder
fetch task.  The fetched object loses its `id` and gains `overwrite = true`
before being written to `folders/<uid>.json`. -/
def transformFolder (fields : List (String × Json)) : List (String × Json) :=
  objInsert (objRemove fields "id") "overwrite" (.bool true)

def folderTaskBody (uid : String) (r : FetchResult) : TaskOutcome :=
  match r with
  | .transportErr _ => .errLogged uid
  | .badJson => .skippedSilent
  | .json j =>
    match j.getObj with
    | none => .panicked
    | some fields => .saved uid (.obj (transformFolder fields))

/-- Lines 99-129 with lines 170-172 of `export_dashboards`: one spawned task
per dashboard uid; each task's outcome depends only on its own fetch
result. -/
def exportDashOutcomes (jobs : List (String × FetchResult)) :
    List TaskOutcome :=
  jobs.map (fun p => dashTaskBody p.1 p.2)

/-- Lines 170-172: `for handle in handles { handle.await.unwrap() }`.  The
join loop finishes normally exactly when no joined task panicked; a panicked
task makes `unwrap` re-raise, aborting the phase. -/
def joinAll (outs : List TaskOutcome) : Bool :=
  outs.all (fun o => !o.isPanic)

/-- The snapshot files written by a list of task outcomes. -/
def savedSnapshots (outs : List TaskOutcome) : List (String × Json) :=
  outs.filterMap (fun o => match o with
    | .saved u d => some (u, d)
    | _ => none)

/-- The `src`/`dst` credentials of the YAML configuration (lines 47-57). -/
structure Credential where
  host : String
  api_key : String

structure Grafana where
  src : Credential
  dst : Credential

/-- Line 69: the dashboard/folder export client sets `AUTHORIZATION` to the
configured source api_key verbatim. -/
def exportDashFolderAuth (g : Grafana) : String := g.src.api_key

/-- Lines 179-180: the datasource export client prepends `Bearer `. -/
def exportDatasourceAuth (g : Grafana) : String := "Bearer " ++ g.src.api_key

/-- Lines 240-241: the dashboard/folder import client prepends `Bearer ` to
the destination key. -/
def importDashboardAuth (g : Grafana) : String := "Bearer " ++ g.dst.api_key

/-- Lines 332-333: the datasource import client prepends `Bearer ` to the
destination key. -/
def importDatasourceAuth (g : Grafana) : String := "Bearer " ++ g.dst.api_key

/-- Lines 204-211 of `export_datasources`: each element of the source
datasource listing loses `id` and `orgId` when it is an object and is kept
unchanged otherwise. -/
def dsTransformItem (item : Json) : Json :=
  match item with
  | .obj fields => .obj (objRemove (objRemove fields "id") "orgId")
  | j => j

/-- Lines 219-229 of `export_datasources`: the save loop.  An element whose
`uid` field (via `Value` indexing, `Null` when absent or the element is not
an object) is not a string is skipped with `continue`; any other element is
written to `datasources/<uid>.json`. -/
def exportDatasourceSaves : List Json → List (String × Json)
  | [] => []
  | ds :: rest =>
    match (ds.idx "uid").asStr with
    | none => exportDatasourceSaves rest
    | some uid => (uid, ds) :: exportDatasourceSaves rest

/-- HTTP methods used by the import path. -/
inductive Method where
  | GET
  | POST
  | PUT
deriving DecidableEq, Repr

/-- A request issued against the destination: a probe/listing `get`, or a
document write with a method, an endpoint and a JSON body. -/
inductive Req where
  | get (url : String)
  | send (m : Method) (url : String) (body : Json)

def Req.isSend : Req → Bool
  | .send _ _ _ => true
  | _ => false

/-- Result of running a code path that may `unwrap` an error: either a
normal value or a panic that aborts the surrounding call. -/
inductive RunOutcome (α : Type) where
  | ok (a : α)
  | panicked

/-- Lines 14-15 of `list_dir`: `collect::<Result<Vec<_>, io::Error>>()` over
the directory entries, `none` when any entry is an error (the second
`unwrap` then panics). -/
def collectEntries : List (Except String String) → Option (List String)
  | [] => some []
  | .ok p :: rest => (collectEntries rest).map (fun ps => p :: ps)
  | .error _ :: _ => none

/-- Lines 12-16: `list_dir` calls `fs::read_dir(dir_path).unwrap()` and then
unwraps the collected entries: an unreadable directory, or an unreadable
entry, panics. -/
def list_dir (readDirResult : Except String (List (Except String String))) :
    RunOutcome (List String) :=
  match readDirResult with
  | .error _ => .panicked
  | .ok entries =>
    match collectEntries entries with
    | none => .panicked
    | some paths => .ok paths

/-- Lines 266-270 of `import_dashboards`:
`folder_exist = probe.map(|res| res.status() == OK).unwrap_or(false)`. -/
def folderExist (probe : Except String Nat) : Bool :=
  match probe with
  | .ok status => status == 200
  | .error _ => false

/-- Lines 272-277: PUT to the per-uid endpoint when the probe returned
status OK, otherwise POST to the folder collection endpoint. -/
def resolveFolder (probe : Except String Nat) (host uid : String) :
    Method × String :=
  if folderExist probe then (.PUT, host ++ "/api/folders/" ++ uid)
  else (.POST, host ++ "/api/folders")

/-- Lines 265-289: the requests issued by one folder import task — the
per-uid existence probe, then the single document write chosen by
`resolveFolder`. -/
def folderImportRequests (host uid : String) (doc : Json)
    (probe : Except String Nat) : List Req :=
  [Req.get (host ++ "/api/folders/" ++ uid),
   Req.send (resolveFolder probe host uid).1
     (resolveFolder probe host uid).2 doc]

/-- `json_data.get("uid").unwrap().as_str().unwrap()` (lines 260 and 374):
the uid of a loaded snapshot; `none` models the panic. -/
def docUid (doc : Json) : Option String :=
  match doc.getObj with
  | none => none
  | some fields =>
    match objGet fields "uid" with
    | none => none
    | some v => v.asStr

/-- Importing one loaded folder snapshot (lines 256-289): extract the uid
(panicking when it is absent or not a string), then issue the probe and the
resolved write. -/
def importFolderDoc (host : String) (probe : Except String Nat)
    (doc : Json) : RunOutcome (List Req) :=
  match docUid doc with
  | none => .panicked
  | some uid => .ok (folderImportRequests host uid doc probe)

/-- `Value::String(u) == j` as used by
`dst_datasource_uids.contains(&json!(uid))` (line 376): true exactly when
the listed uid value is the string `u`. -/
def isStrEq (j : Json) (u : String) : Bool :=
  match j with
  | .str s => s == u
  | _ => false

/-- Lines 350-366 of `import_datasources`: the uid values collected from the
one destination listing — empty on transport error, on a body that is not
valid JSON, or on a non-array body; otherwise the `uid` field of every
array element that is an object and has one. -/
def dsDestUids (r : Except String (Option Json)) : List Json :=
  match r with
  | .error _ => []
  | .ok body =>
    ((match body with
      | some j => (j.getArr).getD []
      | none => [])).filterMap
      (fun (item : Json) => match item.getObj with
        | none => none
        | some fields => objGet fields "uid")

/-- Lines 376-380: PUT to the per-uid datasource endpoint when the local uid
is contained in the collected destination uid values, POST to the
collection endpoint otherwise. -/
def resolveDatasource (dstUids : List Json) (host uid : String) :
    Method × String :=
  if dstUids.any (fun j => isStrEq j uid) then
    (.PUT, host ++ "/api/datasources/uid/" ++ uid)
  else (.POST, host ++ "/api/datasources")

/-- The uid extraction of lines 371-374 applied to every loaded datasource
snapshot; `none` models the panic on a snapshot without a string uid. -/
def extractDocUids : List Json → Option (List (String × Json))
  | [] => some []
  | d :: rest =>
    match docUid d with
    | none => none
    | some u =>
      match extractDocUids rest with
      | none => none
      | some ps => some ((u, d) :: ps)

/-- Lines 348-404 of `import_datasources`: one listing request against the
destination, then one resolved write per local snapshot, all resolved
against the uid set collected from that single listing. -/
def importDatasourcesRun (host : String)
    (listResp : Except String (Option Json)) (docs : List Json) :
    RunOutcome (List Req) :=
  match extractDocUids docs with
  | none => .panicked
  | some pairs =>
    .ok (Req.get (host ++ "/api/datasources") ::
      pairs.map (fun p =>
        Req.send (resolveDatasource (dsDestUids listResp) host p.1).1
          (resolveDatasource (dsDestUids listResp) host p.1).2 p.2))

/-! ### Event traces of the orchestration

`export_dashboards` (lines 60-176) spawns one task per dashboard uid and —
without awaiting them — one task per folder uid into the same `handles`
vector, joins the whole vector once (lines 170-172) and only then runs the
sequential `export_datasources`.  `import_dashboards` (lines 234-326)
spawns the folder import tasks, drains and awaits them all (lines 292-294),
then spawns the dashboard import tasks, joins them (lines 320-322) and runs
`import_datasources`.  `main` awaits `export_dashboards` before calling
`import_dashboards` (lines 415-417).  The traces below record, for each
spawned task, a start and a completion event; a join group of concurrently
spawned tasks may interleave arbitrarily (`Shuffle`), and segments
separated by an `await` barrier are concatenated. -/

inductive EKind where
  | dash
  | fold
deriving DecidableEq, Repr

inductive Ev where
  | mkdir (d : String)
  | fetchStart (k : EKind) (uid : String)
  | fetchDone (k : EKind) (uid : String)
  | dsExportList
  | dsExportSave (uid : String)
  | impStart (k : EKind) (uid : String)
  | impDone (k : EKind) (uid : String)
  | dsImportList
  | dsImportSend (uid : String)
deriving DecidableEq, Repr

/-- Arbitrary interleaving of a family of per-task event sequences: the
orders a scheduler may produce for one group of concurrently spawned tasks,
each task's own events staying in program order. -/
inductive Shuffle : List (List Ev) → List Ev → Prop where
  | done (ls : List (List Ev)) (h : ∀ l ∈ ls, l = []) : Shuffle ls []
  | step (ls1 : List (List Ev)) (x : Ev) (l : List Ev) (ls2 : List (List Ev))
      (t : List Ev) (h : Shuffle (ls1 ++ l :: ls2) t) :
      Shuffle (ls1 ++ (x :: l) :: ls2) (x :: t)

/-- The events of one export fetch task (dashboard or folder). -/
def fetchTaskEvs (k : EKind) (uid : String) : List Ev :=
  [.fetchStart k uid, .fetchDone k uid]

/-- The sequential `export_datasources` call (lines 178-232): the listing
request, then the directory creation, then the per-datasource saves. -/
def dsExportEvs (dsUids : List String) : List Ev :=
  Ev.dsExportList :: Ev.mkdir "datasources" :: dsUids.map Ev.dsExportSave

/-- The traces of `export_dashboards`: the two directory creations, then
any interleaving of the dashboard and folder fetch tasks — both spawned
into the one `handles` vector joined at lines 170-172 — then the
sequential datasource export. -/
def IsExportTrace (dashUids foldUids dsUids : List String)
    (t : List Ev) : Prop :=
  ∃ body,
    Shuffle (dashUids.map (fetchTaskEvs .dash) ++
      foldUids.map (fetchTaskEvs .fold)) body ∧
    t = Ev.mkdir "dashboards" :: Ev.mkdir "folders" ::
      (body ++ dsExportEvs dsUids)

/-- The events of one import task (folder or dashboard). -/
def impTaskEvs (k : EKind) (uid : String) : List Ev :=
  [.impStart k uid, .impDone k uid]

/-- The sequential `import_datasources` call (lines 328-407). -/
def dsImportEvs (dsUids : List String) : List Ev :=
  Ev.dsImportList :: dsUids.map Ev.dsImportSend

/-- The traces of `import_dashboards`: any interleaving of the folder
importing tasks (drained and awaited at lines 292-294), then any
interleaving of the dashboard importing tasks (joined at lines 320-322),
then the datasource import. -/
def IsImportTrace (foldUids dashUids dsUids : List String)
    (t : List Ev) : Prop :=
  ∃ fb db,
    Shuffle (foldUids.map (impTaskEvs .fold)) fb ∧
    Shuffle (dashUids.map (impTaskEvs .dash)) db ∧
    t = fb ++ (db ++ dsImportEvs dsUids)

/-- The traces of `main` (lines 410-420): the export awaited to completion,
then the import. -/
def IsMainTrace (eDash eFold eDs iFold iDash iDs : List String)
    (t : List Ev) : Prop :=
  ∃ et it, IsExportTrace eDash eFold eDs et ∧
    IsImportTrace iFold iDash iDs it ∧ t = et ++ it

def isFetchEv : Ev → Bool
  | .fetchStart _ _ => true
  | .fetchDone _ _ => true
  | _ => false

def isDashFetchDone : Ev → Bool
  | .fetchDone .dash _ => true
  | _ => false

def isFoldFetchStart : Ev → Bool
  | .fetchStart .fold _ => true
  | _ => false

def isDsExportEv : Ev → Bool
  | .dsExportList => true
  | .dsExportSave _ => true
  | .mkdir d => d == "datasources"
  | _ => false

def isExportEv : Ev → Bool
  | .mkdir _ => true
  | .fetchStart _ _ => true
  | .fetchDone _ _ => true
  | .dsExportList => true
  | .dsExportSave _ => true
  | _ => false

def isImportEv : Ev → Bool
  | .impStart _ _ => true
  | .impDone _ _ => true
  | .dsImportList => true
  | .dsImportSend _ => true
  | _ => false

def isImpEvOf (k : EKind) : Ev → Bool
  | .impStart k' _ => k' == k
  | .impDone k' _ => k' == k
  | _ => false

def isFoldImpDone : Ev → Bool
  | .impDone .fold _ => true
  | _ => false

def isDashImpStart : Ev → Bool
  | .impStart .dash _ => true
  | _ => false

/-- Every event satisfying `P` occurs strictly before every event
satisfying `Q` in the trace. -/
def Precedes (P Q : Ev → Bool) (t : List Ev) : Prop :=
  ∀ i j : Fin t.length,
    P (t.get i) = true → Q (t.get j) = true → (i : Nat) < (j : Nat)

instance decPrecedes (P Q : Ev → Bool) (t : List Ev) :
    Decidable (Precedes P Q t) :=
  inferInstanceAs (Decidable (∀ i j : Fin t.length,
    P (t.get i) = true → Q (t.get j) = true → (i : Nat) < (j : Nat)))

/-! ### Lookup lemmas for the object operations -/

theorem objGet_objInsert_self (l : List (String × Json)) (k : String)
    (v : Json) : objGet (objInsert l k v) k = some v := by
  induction l with
  | nil => simp [objInsert, objGet]
  | cons p rest ih =>
      by_cases h : p.1 = k
      · simp [objInsert, h, objGet]
      · simp [objInsert, h, objGet, ih]

theorem objGet_objInsert_ne (l : List (String × Json)) (k k' : String)
    (v : Json) (hne : k' ≠ k) :
    objGet (objInsert l k v) k' = objGet l k' := by
  have hkk' : ¬ k = k' := fun hh => hne hh.symm
  induction l with
  | nil => simp [objInsert, objGet, hkk']
  | cons p rest ih =>
      by_cases h : p.1 = k
      · simp [objInsert, h, objGet, hkk']
      · simp [objInsert, h, objGet, ih]

theorem objGet_objRemove_self (l : List (String × Json)) (k : String) :
    objGet (objRemove l k) k = none := by
  induction l with
  | nil => simp [objRemove, objGet]
  | cons p rest ih =>
      by_cases h : p.1 = k
      · simp [objRemove, h, ih]
      · simp [objRemove, h, objGet, ih]

theorem objGet_objRemove_ne (l : List (String × Json)) (k k' : String)
    (hne : k' ≠ k) : objGet (objRemove l k) k' = objGet l k' := by
  induction l with
  | nil => simp [objRemove, objGet]
  | cons p rest ih =>
      by_cases h : p.1 = k
      · have hkk' : ¬ k = k' := fun hh => hne hh.symm
        simp [objRemove, h, objGet, hkk', ih]
      · simp [objRemove, h, objGet, ih]

/-! ### C1: the dashboard transformation -/

/-- C1: for every dashboard API response that is a JSON object with a string
field `meta.folderUid` and an object field `dashboard`, the transformed
document written by export has no `id` key inside `dashboard`, no top-level
`meta` key, a top-level `folderUid` equal to the original `meta.folderUid`,
a top-level `overwrite` equal to `true`, and every other field of the
response unchanged (the `dashboard` object itself changed only by the
removal of `id`). -/
theorem dashboard_transform_correct
    (fs mfs dfs : List (String × Json)) (fu : String)
    (hm : objGet fs "meta" = some (.obj mfs))
    (hfu : objGet mfs "folderUid" = some (.str fu))
    (hd : objGet fs "dashboard" = some (.obj dfs)) :
    ∃ out, transformDash fs = some out ∧
      objGet out "meta" = none ∧
      objGet out "dashboard" = some (.obj (objRemove dfs "id")) ∧
      objGet (objRemove dfs "id") "id" = none ∧
      (∀ k, k ≠ "id" → objGet (objRemove dfs "id") k = objGet dfs k) ∧
      objGet out "folderUid" = some (.str fu) ∧
      objGet out "overwrite" = some (.bool true) ∧
      (∀ k, k ≠ "meta" → k ≠ "dashboard" → k ≠ "folderUid" →
        k ≠ "overwrite" → objGet out k = objGet fs k) := by
  have hidx : ((Json.obj mfs).idx "folderUid").asStr = some fu := by
    simp [Json.idx, hfu, Json.asStr]
  refine ⟨objInsert
      (objInsert
        (objRemove (objInsert fs "dashboard" (.obj (objRemove dfs "id")))
          "meta")
        "folderUid" (.str fu))
      "overwrite" (.bool true), ?_, ?_, ?_, ?_, ?_, ?_, ?_, ?_⟩
  · simp [transformDash, hm, hidx, hd, Json.getObj]
  · rw [objGet_objInsert_ne _ _ _ _ (by decide),
      objGet_objInsert_ne _ _ _ _ (by decide), objGet_objRemove_self]
  · rw [objGet_objInsert_ne _ _ _ _ (by decide),
      objGet_objInsert_ne _ _ _ _ (by decide),
      objGet_objRemove_ne _ _ _ (by decide), objGet_objInsert_self]
  · exact objGet_objRemove_self dfs "id"
  · exact fun k hk => objGet_objRemove_ne dfs "id" k hk
  · rw [objGet_objInsert_ne _ _ _ _ (by decide), objGet_objInsert_self]
  · rw [objGet_objInsert_self]
  · intro k hkm hkd hkf hko
    rw [objGet_objInsert_ne _ _ _ _ hko, objGet_objInsert_ne _ _ _ _ hkf,
      objGet_objRemove_ne _ _ _ hkm, objGet_objInsert_ne _ _ _ _ hkd]

/-- C1 witness: the transformation at the spec's concrete example, a
response with `meta.folderUid` equal to `F1` and `dashboard.id` equal to
42. -/
theorem dashboard_transform_correct_witness :
    ∃ out,
      transformDash
        [("meta", .obj [("folderUid", .str "F1")]),
         ("dashboard",
           .obj [("id", .num 42), ("uid", .str "d1"), ("title", .str "T")]),
         ("extra", .str "keep")] = some out ∧
      objGet out "meta" = none ∧
      objGet out "dashboard" =
        some (.obj (objRemove
          [("id", .num 42), ("uid", .str "d1"), ("title", .str "T")] "id")) ∧
      objGet (objRemove
        [("id", .num 42), ("uid", .str "d1"), ("title", .str "T")] "id")
        "id" = none ∧
      (∀ k, k ≠ "id" →
        objGet (objRemove
          [("id", .num 42), ("uid", .str "d1"), ("title", .str "T")] "id") k =
        objGet [("id", .num 42), ("uid", .str "d1"), ("title", .str "T")] k) ∧
      objGet out "folderUid" = some (.str "F1") ∧
      objGet out "overwrite" = some (.bool true) ∧
      (∀ k, k ≠ "meta" → k ≠ "dashboard" → k ≠ "folderUid" →
        k ≠ "overwrite" → objGet out k =
          objGet
            [("meta", .obj [("folderUid", .str "F1")]),
             ("dashboard",
               .obj [("id", .num 42), ("uid", .str "d1"),
                 ("title", .str "T")]),
             ("extra", .str "keep")] k) :=
  dashboard_transform_correct
    [("meta", .obj [("folderUid", .str "F1")]),
     ("dashboard",
       .obj [("id", .num 42), ("uid", .str "d1"), ("title", .str "T")]),
     ("extra", .str "keep")]
    [("folderUid", .str "F1")]
    [("id", .num 42), ("uid", .str "d1"), ("title", .str "T")]
    "F1" (by simp [objGet]) (by simp [objGet]) (by simp [objGet])

/-! ### C2: failure isolation in the concurrent export phase -/

/-- C2 counterexample: with three dashboards whose second fetch yields a
response that is valid JSON but not a JSON object (`[]`), the second task
panics while the sibling tasks are unaffected, and the join loop
(`handle.await.unwrap()`) re-raises the panic: the phase does not complete,
contradicting the claim that such a failure is caught and logged at the
task boundary with the phase still completing. -/
theorem export_task_panic_aborts_phase :
    joinAll (exportDashOutcomes
      [("d1", .json (.obj [("meta", .obj [("folderUid", .str "F1")]),
         ("dashboard", .obj [("id", .num 1), ("uid", .str "d1")])])),
       ("d2", .json (.arr [])),
       ("d3", .json (.obj [("meta", .obj [("folderUid", .str "F2")]),
         ("dashboard", .obj [("id", .num 3), ("uid", .str "d3")])]))]) =
      false ∧
    (exportDashOutcomes
      [("d1", .json (.obj [("meta", .obj [("folderUid", .str "F1")]),
         ("dashboard", .obj [("id", .num 1), ("uid", .str "d1")])])),
       ("d2", .json (.arr [])),
       ("d3", .json (.obj [("meta", .obj [("folderUid", .str "F2")]),
         ("dashboard", .obj [("id", .num 3), ("uid", .str "d3")])]))]).map
      TaskOutcome.isPanic = [false, true, false] := by
  constructor <;> rfl

/-- C2 (amended): a transport error inside one export task is logged and the
entity skipped, a per-task failure never changes a sibling task's outcome
(each outcome is a function of that task's own fetch result alone), and
when no task panics — a panic arises exactly from a valid-JSON response
that is not a well-formed dashboard object — the join loop completes after
every task has finished and every successful task's snapshot is among the
written files.  (A panicking task, by contrast, is re-raised by
`handle.await.unwrap()` and aborts the phase, as the counterexample
shows.) -/
theorem export_phase_isolation (jobs : List (String × FetchResult))
    (h : ∀ p ∈ jobs, (dashTaskBody p.1 p.2).isPanic = false) :
    joinAll (exportDashOutcomes jobs) = true ∧
    (∀ p ∈ jobs, ∀ u d, dashTaskBody p.1 p.2 = .saved u d →
      (u, d) ∈ savedSnapshots (exportDashOutcomes jobs)) ∧
    (∀ p ∈ jobs, ∀ m, p.2 = .transportErr m →
      dashTaskBody p.1 p.2 = .errLogged p.1) := by
  refine ⟨?_, ?_, ?_⟩
  · simp only [joinAll, exportDashOutcomes, List.all_eq_true, List.mem_map]
    rintro b ⟨p, hp, rfl⟩
    simp [h p hp]
  · intro p hp u d hsaved
    exact List.mem_filterMap.mpr
      ⟨dashTaskBody p.1 p.2, List.mem_map_of_mem _ hp, by rw [hsaved]⟩
  · intro p hp m hm
    rw [hm]
    rfl

/-- C2 witness: three dashboards, the middle fetch failing with a transport
error; the join completes and the other two dashboards' transformed
snapshots are written. -/
theorem export_phase_isolation_witness :
    joinAll (exportDashOutcomes
      [("d1", .json (.obj [("meta", .obj [("folderUid", .str "F1")]),
         ("dashboard", .obj [("id", .num 1), ("uid", .str "d1")])])),
       ("d2", .transportErr "connection refused"),
       ("d3", .json (.obj [("meta", .obj [("folderUid", .str "F2")]),
         ("dashboard", .obj [("id", .num 3), ("uid", .str "d3")])]))]) =
      true ∧
    ("d1", Json.obj [("dashboard", .obj [("uid", .str "d1")]),
        ("folderUid", .str "F1"), ("overwrite", .bool true)]) ∈
      savedSnapshots (exportDashOutcomes
        [("d1", .json (.obj [("meta", .obj [("folderUid", .str "F1")]),
           ("dashboard", .obj [("id", .num 1), ("uid", .str "d1")])])),
         ("d2", .transportErr "connection refused"),
         ("d3", .json (.obj [("meta", .obj [("folderUid", .str "F2")]),
           ("dashboard", .obj [("id", .num 3), ("uid", .str "d3")])]))]) ∧
    ("d3", Json.obj [("dashboard", .obj [("uid", .str "d3")]),
        ("folderUid", .str "F2"), ("overwrite", .bool true)]) ∈
      savedSnapshots (exportDashOutcomes
        [("d1", .json (.obj [("meta", .obj [("folderUid", .str "F1")]),
           ("dashboard", .obj [("id", .num 1), ("uid", .str "d1")])])),
         ("d2", .transportErr "connection refused"),
         ("d3", .json (.obj [("meta", .obj [("folderUid", .str "F2")]),
           ("dashboard", .obj [("id", .num 3), ("uid", .str "d3")])]))]) := by
  have h := export_phase_isolation
    [("d1", .json (.obj [("meta", .obj [("folderUid", .str "F1")]),
       ("dashboard", .obj [("id", .num 1), ("uid", .str "d1")])])),
     ("d2", .transportErr "connection refused"),
     ("d3", .json (.obj [("meta", .obj [("folderUid", .str "F2")]),
       ("dashboard", .obj [("id", .num 3), ("uid", .str "d3")])]))]
    (by decide)
  exact ⟨h.1,
    h.2.1 ("d1", .json (.obj [("meta", .obj [("folderUid", .str "F1")]),
      ("dashboard", .obj [("id", .num 1), ("uid", .str "d1")])]))
      (by simp) "d1" _ rfl,
    h.2.1 ("d3", .json (.obj [("meta", .obj [("folderUid", .str "F2")]),
      ("dashboard", .obj [("id", .num 3), ("uid", .str "d3")])]))
      (by simp) "d3" _ rfl⟩

/-! ### C9: the authorization headers of the four HTTP clients -/

/-- C9: the dashboard/folder export client carries the source api_key
verbatim in its Authorization header, while the datasource export client
and both import clients carry `Bearer ` followed by the respective key;
hence whenever the source api_key does not itself start with `Bearer `,
dashboard/folder export requests carry a different Authorization value from
every other request of the run. -/
theorem auth_header_asymmetry (g : Grafana)
    (h : ∀ s, g.src.api_key ≠ "Bearer " ++ s) :
    exportDashFolderAuth g = g.src.api_key ∧
    exportDatasourceAuth g = "Bearer " ++ g.src.api_key ∧
    importDashboardAuth g = "Bearer " ++ g.dst.api_key ∧
    importDatasourceAuth g = "Bearer " ++ g.dst.api_key ∧
    exportDashFolderAuth g ≠ exportDatasourceAuth g ∧
    exportDashFolderAuth g ≠ importDashboardAuth g ∧
    exportDashFolderAuth g ≠ importDatasourceAuth g :=
  ⟨rfl, rfl, rfl, rfl, h _, h _, h _⟩

/-- C9 witness: a concrete configuration whose source key `abc` does not
start with `Bearer `. -/
theorem auth_header_asymmetry_witness :
    exportDashFolderAuth ⟨⟨"http://s", "abc"⟩, ⟨"http://d", "xyz"⟩⟩ =
      "abc" ∧
    exportDatasourceAuth ⟨⟨"http://s", "abc"⟩, ⟨"http://d", "xyz"⟩⟩ =
      "Bearer " ++ "abc" ∧
    importDashboardAuth ⟨⟨"http://s", "abc"⟩, ⟨"http://d", "xyz"⟩⟩ =
      "Bearer " ++ "xyz" ∧
    importDatasourceAuth ⟨⟨"http://s", "abc"⟩, ⟨"http://d", "xyz"⟩⟩ =
      "Bearer " ++ "xyz" ∧
    exportDashFolderAuth ⟨⟨"http://s", "abc"⟩, ⟨"http://d", "xyz"⟩⟩ ≠
      exportDatasourceAuth ⟨⟨"http://s", "abc"⟩, ⟨"http://d", "xyz"⟩⟩ ∧
    exportDashFolderAuth ⟨⟨"http://s", "abc"⟩, ⟨"http://d", "xyz"⟩⟩ ≠
      importDashboardAuth ⟨⟨"http://s", "abc"⟩, ⟨"http://d", "xyz"⟩⟩ ∧
    exportDashFolderAuth ⟨⟨"http://s", "abc"⟩, ⟨"http://d", "xyz"⟩⟩ ≠
      importDatasourceAuth ⟨⟨"http://s", "abc"⟩, ⟨"http://d", "xyz"⟩⟩ :=
  auth_header_asymmetry ⟨⟨"http://s", "abc"⟩, ⟨"http://d", "xyz"⟩⟩
    (fun s hs => by
      have hlen := congrArg String.length hs
      rw [String.length_append] at hlen
      have h1 : "abc".length = 3 := rfl
      have h2 : "Bearer ".length = 7 := rfl
      rw [h1, h2] at hlen
      omega)

/-! ### C10: datasource export skips elements without a string uid -/

/-- C10: during datasource export every element of the source listing whose
`uid` field is absent or not a string is silently skipped — it contributes
no snapshot file and raises no error — while every element with a string
uid is still persisted under that uid. -/
theorem datasource_export_skip (items : List Json) :
    exportDatasourceSaves items =
      items.filterMap
        (fun ds => ((ds.idx "uid").asStr).map (fun u => (u, ds))) ∧
    (∀ p ∈ exportDatasourceSaves items,
      p.2 ∈ items ∧ (p.2.idx "uid").asStr = some p.1) ∧
    (∀ ds ∈ items, ∀ u, (ds.idx "uid").asStr = some u →
      (u, ds) ∈ exportDatasourceSaves items) ∧
    (∀ ds ∈ items, (ds.idx "uid").asStr = none →
      ∀ u, (u, ds) ∉ exportDatasourceSaves items) := by
  have hmem : ∀ its : List Json, ∀ p ∈ exportDatasourceSaves its,
      p.2 ∈ its ∧ (p.2.idx "uid").asStr = some p.1 := by
    intro its
    induction its with
    | nil => simp [exportDatasourceSaves]
    | cons d rest ih =>
        intro p hp
        cases hu : (d.idx "uid").asStr with
        | none =>
            rw [exportDatasourceSaves, hu] at hp
            exact ⟨List.mem_cons_of_mem _ (ih p hp).1, (ih p hp).2⟩
        | some u =>
            rw [exportDatasourceSaves, hu] at hp
            rcases List.mem_cons.mp hp with h | h
            · subst h
              exact ⟨List.mem_cons_self _ _, hu⟩
            · exact ⟨List.mem_cons_of_mem _ (ih p h).1, (ih p h).2⟩
  refine ⟨?_, hmem items, ?_, ?_⟩
  · induction items with
    | nil => rfl
    | cons d rest ih =>
        cases hu : (d.idx "uid").asStr <;>
          simp [exportDatasourceSaves, hu, ih]
  · induction items with
    | nil => simp
    | cons d rest ih =>
        intro ds hds u hu
        rcases List.mem_cons.mp hds with h | h
        · subst h
          rw [exportDatasourceSaves, hu]
          exact List.mem_cons_self _ _
        · cases hd : (d.idx "uid").asStr <;>
            · rw [exportDatasourceSaves, hd]
              first
                | exact ih ds h u hu
                | exact List.mem_cons_of_mem _ (ih ds h u hu)
  · intro ds hds hnone u hm
    have h2 : (ds.idx "uid").asStr = some u := (hmem items (u, ds) hm).2
    rw [hnone] at h2
    exact Option.noConfusion h2

/-- C10 witness: a listing with one element lacking a string uid between two
well-formed datasources; the two well-formed ones are saved, the malformed
one contributes nothing. -/
theorem datasource_export_skip_witness :
    ("u1", Json.obj [("uid", .str "u1"), ("type", .str "prometheus")]) ∈
      exportDatasourceSaves
        [.obj [("uid", .str "u1"), ("type", .str "prometheus")],
         .obj [("name", .str "broken")],
         .obj [("uid", .str "u2")]] ∧
    ("u2", Json.obj [("uid", .str "u2")]) ∈
      exportDatasourceSaves
        [.obj [("uid", .str "u1"), ("type", .str "prometheus")],
         .obj [("name", .str "broken")],
         .obj [("uid", .str "u2")]] ∧
    (∀ u, (u, Json.obj [("name", .str "broken")]) ∉
      exportDatasourceSaves
        [.obj [("uid", .str "u1"), ("type", .str "prometheus")],
         .obj [("name", .str "broken")],
         .obj [("uid", .str "u2")]]) := by
  have h := datasource_export_skip
    [.obj [("uid", .str "u1"), ("type", .str "prometheus")],
     .obj [("name", .str "broken")],
     .obj [("uid", .str "u2")]]
  exact ⟨h.2.2.1 _ (by simp) "u1" rfl,
    h.2.2.1 _ (by simp) "u2" rfl,
    h.2.2.2 _ (by simp) rfl⟩

/-! ### C4: per-folder upsert resolution during import -/

theorem folderExist_iff (probe : Except String Nat) :
    folderExist probe = true ↔ probe = .ok 200 := by
  cases probe with
  | error e => simp [folderExist]
  | ok s => simp [folderExist]

/-- C4: every imported folder is first probed with a GET of the destination
per-uid endpoint; the document is then sent with PUT to the per-uid
endpoint exactly when that probe returned status OK, and with POST to the
folder collection endpoint in every other case — any non-OK status and any
transport error during the probe, which therefore defaults to create
instead of aborting. -/
theorem folder_upsert_resolution (host uid : String) (doc : Json)
    (probe : Except String Nat) :
    (folderImportRequests host uid doc probe).head? =
      some (.get (host ++ "/api/folders/" ++ uid)) ∧
    (probe = .ok 200 ↔
      resolveFolder probe host uid =
        (.PUT, host ++ "/api/folders/" ++ uid)) ∧
    (probe ≠ .ok 200 →
      resolveFolder probe host uid = (.POST, host ++ "/api/folders")) ∧
    (∀ e, resolveFolder (.error e) host uid =
      (.POST, host ++ "/api/folders")) := by
  refine ⟨rfl, ?_, ?_, ?_⟩
  · constructor
    · intro h
      have hf : folderExist probe = true := (folderExist_iff probe).mpr h
      simp [resolveFolder, hf]
    · intro h
      by_cases hf : folderExist probe = true
      · exact (folderExist_iff probe).mp hf
      · rw [resolveFolder, if_neg hf] at h
        exact absurd (congrArg Prod.fst h) (by simp)
  · intro h
    have hf : folderExist probe = false := by
      rw [Bool.eq_false_iff]
      intro hh
      exact h ((folderExist_iff probe).mp hh)
    simp [resolveFolder, hf]
  · intro e
    simp [resolveFolder, folderExist]

/-- C4 witness: a destination that answers 404 to the probe (create), a
transport error during the probe (create), and a 200 answer (update), at
concrete endpoints. -/
theorem folder_upsert_resolution_witness :
    (folderImportRequests "http://d" "u" .null (.ok 404)).head? =
      some (.get ("http://d" ++ "/api/folders/" ++ "u")) ∧
    resolveFolder (.ok 404) "http://d" "u" =
      (.POST, "http://d" ++ "/api/folders") ∧
    resolveFolder (.error "timeout") "http://d" "u" =
      (.POST, "http://d" ++ "/api/folders") ∧
    resolveFolder (.ok 200) "http://d" "u" =
      (.PUT, "http://d" ++ "/api/folders/" ++ "u") :=
  ⟨(folder_upsert_resolution "http://d" "u" .null (.ok 404)).1,
   (folder_upsert_resolution "http://d" "u" .null (.ok 404)).2.2.1
     (by simp),
   (folder_upsert_resolution "http://d" "u" .null (.error "timeout")).2.2.2
     "timeout",
   (folder_upsert_resolution "http://d" "u" .null (.ok 200)).2.1.mp rfl⟩

/-! ### C3: the folder export/import round trip -/

/-- C3: exporting the folder with uid `a`, id 7 and title `X` and importing
the snapshot into a destination whose per-uid probe does not return status
OK issues exactly one document write, a POST to the folder collection
endpoint, whose body holds exactly the keys uid, title and overwrite — uid
`a`, title `X`, `overwrite = true` — and carries no `id` field. -/
theorem folder_roundtrip (host : String) (probe : Except String Nat)
    (hp : probe ≠ .ok 200) :
    transformFolder [("uid", .str "a"), ("id", .num 7), ("title", .str "X")]
      = [("uid", .str "a"), ("title", .str "X"),
         ("overwrite", .bool true)] ∧
    importFolderDoc host probe
      (.obj (transformFolder
        [("uid", .str "a"), ("id", .num 7), ("title", .str "X")])) =
      .ok [Req.get (host ++ "/api/folders/" ++ "a"),
        Req.send .POST (host ++ "/api/folders")
          (.obj [("uid", .str "a"), ("title", .str "X"),
            ("overwrite", .bool true)])] ∧
    List.countP Req.isSend
      [Req.get (host ++ "/api/folders/" ++ "a"),
       Req.send .POST (host ++ "/api/folders")
         (.obj [("uid", .str "a"), ("title", .str "X"),
           ("overwrite", .bool true)])] = 1 ∧
    objGet [("uid", .str "a"), ("title", .str "X"),
      ("overwrite", .bool true)] "id" = none ∧
    ([("uid", Json.str "a"), ("title", Json.str "X"),
      ("overwrite", Json.bool true)].map Prod.fst) =
      ["uid", "title", "overwrite"] := by
  have hf : folderExist probe = false := by
    rw [Bool.eq_false_iff]
    intro hh
    exact hp ((folderExist_iff probe).mp hh)
  refine ⟨rfl, ?_, rfl, rfl, rfl⟩
  simp [importFolderDoc, docUid, transformFolder, objRemove, objInsert,
    objGet, Json.getObj, Json.asStr, folderImportRequests, resolveFolder,
    hf]

/-- C3 witness: the round trip against a destination that is unreachable
while probing (transport error, hence not status OK). -/
theorem folder_roundtrip_witness :
    transformFolder [("uid", .str "a"), ("id", .num 7), ("title", .str "X")]
      = [("uid", .str "a"), ("title", .str "X"),
         ("overwrite", .bool true)] ∧
    importFolderDoc "http://d" (.error "unreachable")
      (.obj (transformFolder
        [("uid", .str "a"), ("id", .num 7), ("title", .str "X")])) =
      .ok [Req.get ("http://d" ++ "/api/folders/" ++ "a"),
        Req.send .POST ("http://d" ++ "/api/folders")
          (.obj [("uid", .str "a"), ("title", .str "X"),
            ("overwrite", .bool true)])] ∧
    List.countP Req.isSend
      [Req.get ("http://d" ++ "/api/folders/" ++ "a"),
       Req.send .POST ("http://d" ++ "/api/folders")
         (.obj [("uid", .str "a"), ("title", .str "X"),
           ("overwrite", .bool true)])] = 1 ∧
    objGet [("uid", .str "a"), ("title", .str "X"),
      ("overwrite", .bool true)] "id" = none ∧
    ([("uid", Json.str "a"), ("title", Json.str "X"),
      ("overwrite", Json.bool true)].map Prod.fst) =
      ["uid", "title", "overwrite"] :=
  folder_roundtrip "http://d" (.error "unreachable") (by simp)

/-! ### C5: datasource import resolution from one listing -/

/-- C5: datasource import issues exactly one listing request, before any
individual datasource is resolved (it is the head of the request trace and
every later request is a document write); each local snapshot is written
with PUT to the per-uid endpoint when its uid is among the uid values
collected from that single listing and with POST to the collection endpoint
otherwise; and a failed listing collects the empty set, so every snapshot
resolves to POST. -/
theorem datasource_import_resolution (host : String)
    (listResp : Except String (Option Json)) (docs : List Json)
    (pairs : List (String × Json)) (h : extractDocUids docs = some pairs) :
    importDatasourcesRun host listResp docs =
      .ok (Req.get (host ++ "/api/datasources") ::
        pairs.map (fun p =>
          Req.send (resolveDatasource (dsDestUids listResp) host p.1).1
            (resolveDatasource (dsDestUids listResp) host p.1).2 p.2)) ∧
    (∀ r ∈ pairs.map (fun p =>
        Req.send (resolveDatasource (dsDestUids listResp) host p.1).1
          (resolveDatasource (dsDestUids listResp) host p.1).2 p.2),
      r.isSend = true) ∧
    (∀ u, (dsDestUids listResp).any (fun j => isStrEq j u) = true →
      resolveDatasource (dsDestUids listResp) host u =
        (.PUT, host ++ "/api/datasources/uid/" ++ u)) ∧
    (∀ u, (dsDestUids listResp).any (fun j => isStrEq j u) = false →
      resolveDatasource (dsDestUids listResp) host u =
        (.POST, host ++ "/api/datasources")) ∧
    (∀ e, listResp = .error e → dsDestUids listResp = [] ∧
      ∀ u, resolveDatasource (dsDestUids listResp) host u =
        (.POST, host ++ "/api/datasources")) := by
  refine ⟨by rw [importDatasourcesRun, h], ?_, ?_, ?_, ?_⟩
  · intro r hr
    rcases List.mem_map.mp hr with ⟨p, _, rfl⟩
    rfl
  · intro u hu
    simp [resolveDatasource, hu]
  · intro u hu
    simp [resolveDatasource, hu]
  · intro e he
    subst he
    exact ⟨rfl, fun u => by simp [resolveDatasource, dsDestUids]⟩

/-- C5 witness: a destination listing containing datasource uid `u1` (plus
a malformed element and a non-object element that contribute nothing), and
two local snapshots `u1` and `u2`: `u1` resolves to PUT on its per-uid
endpoint, `u2` to POST on the collection endpoint, after the single listing
request at the head of the trace. -/
theorem datasource_import_resolution_witness :
    importDatasourcesRun "http://d"
      (.ok (some (.arr [.obj [("uid", .str "u1")],
        .obj [("name", .str "nouid")], .num 3])))
      [.obj [("uid", .str "u1"), ("type", .str "graphite")],
       .obj [("uid", .str "u2")]] =
      .ok (Req.get ("http://d" ++ "/api/datasources") ::
        [("u1", Json.obj [("uid", .str "u1"), ("type", .str "graphite")]),
         ("u2", Json.obj [("uid", .str "u2")])].map (fun p =>
          Req.send
            (resolveDatasource
              (dsDestUids (.ok (some (.arr [.obj [("uid", .str "u1")],
                .obj [("name", .str "nouid")], .num 3]))))
              "http://d" p.1).1
            (resolveDatasource
              (dsDestUids (.ok (some (.arr [.obj [("uid", .str "u1")],
                .obj [("name", .str "nouid")], .num 3]))))
              "http://d" p.1).2 p.2)) ∧
    resolveDatasource
      (dsDestUids (.ok (some (.arr [.obj [("uid", .str "u1")],
        .obj [("name", .str "nouid")], .num 3]))))
      "http://d" "u1" =
      (.PUT, "http://d" ++ "/api/datasources/uid/" ++ "u1") ∧
    resolveDatasource
      (dsDestUids (.ok (some (.arr [.obj [("uid", .str "u1")],
        .obj [("name", .str "nouid")], .num 3]))))
      "http://d" "u2" =
      (.POST, "http://d" ++ "/api/datasources") := by
  have h := datasource_import_resolution "http://d"
    (.ok (some (.arr [.obj [("uid", .str "u1")],
      .obj [("name", .str "nouid")], .num 3])))
    [.obj [("uid", .str "u1"), ("type", .str "graphite")],
     .obj [("uid", .str "u2")]]
    [("u1", Json.obj [("uid", .str "u1"), ("type", .str "graphite")]),
     ("u2", Json.obj [("uid", .str "u2")])] rfl
  exact ⟨h.1, h.2.2.1 "u1" rfl, h.2.2.2.1 "u2" rfl⟩

/-! ### C8: listing the persisted snapshots of a kind -/

/-- C8 counterexample: an unreadable snapshot directory makes `list_dir`
panic (`fs::read_dir(..).unwrap()`), aborting the import, instead of
yielding the empty sequence the claim describes. -/
theorem list_dir_unreadable_panics :
    list_dir (.error "permission denied") = .panicked ∧
    list_dir (.error "permission denied") ≠ .ok [] :=
  ⟨rfl, fun h => RunOutcome.noConfusion h⟩

/-- C8 (amended): listing the persisted documents of a kind enumerates all
snapshot files under that kind's directory when it is readable, but an
unreadable directory causes a panic that aborts the import — the error is
propagated by `unwrap`, not logged and turned into an empty sequence. -/
theorem list_dir_behavior :
    (∀ e, list_dir (.error e) = .panicked) ∧
    (∀ paths : List String,
      list_dir (.ok (paths.map Except.ok)) = .ok paths) := by
  refine ⟨fun e => rfl, fun paths => ?_⟩
  have h : ∀ ps : List String, collectEntries (ps.map Except.ok) = some ps := by
    intro ps
    induction ps with
    | nil => rfl
    | cons p rest ih => simp [collectEntries, ih]
  rw [list_dir, h]

/-! ### Trace lemmas for the orchestration claims -/

theorem Shuffle.mem_of (ls : List (List Ev)) (t : List Ev)
    (h : Shuffle ls t) : ∀ e ∈ t, ∃ l ∈ ls, e ∈ l := by
  induction h with
  | done ls h => simp
  | step ls1 x l ls2 t h ih =>
      intro e he
      rcases List.mem_cons.mp he with rfl | he
      · exact ⟨e :: l,
          List.mem_append.mpr (Or.inr (List.mem_cons_self _ _)),
          List.mem_cons_self _ _⟩
      · rcases ih e he with ⟨l', hl', hel⟩
        rcases List.mem_append.mp hl' with h1 | h1
        · exact ⟨l', List.mem_append.mpr (Or.inl h1), hel⟩
        · rcases List.mem_cons.mp h1 with rfl | h1
          · exact ⟨x :: l',
              List.mem_append.mpr (Or.inr (List.mem_cons_self _ _)),
              List.mem_cons_of_mem _ hel⟩
          · exact ⟨l',
              List.mem_append.mpr (Or.inr (List.mem_cons_of_mem _ h1)),
              hel⟩

theorem Shuffle.cons_nil (ls : List (List Ev)) (t : List Ev)
    (h : Shuffle ls t) : Shuffle ([] :: ls) t := by
  induction h with
  | done ls h =>
      refine Shuffle.done _ ?_
      intro l hl
      rcases List.mem_cons.mp hl with rfl | hl
      · rfl
      · exact h l hl
  | step ls1 x l ls2 t h ih => exact Shuffle.step ([] :: ls1) x l ls2 t ih

/-- The fully sequential schedule — each task runs to completion before the
next starts — is one of the allowed interleavings. -/
theorem shuffle_seq (ls : List (List Ev)) : Shuffle ls ls.flatten := by
  induction ls with
  | nil => exact .done _ (by simp)
  | cons l ls ih =>
      induction l with
      | nil => exact Shuffle.cons_nil ls ls.flatten ih
      | cons x xs ihx => exact Shuffle.step [] x xs ls _ ihx

theorem precedes_of_append (P Q : Ev → Bool) (a b : List Ev)
    (ha : ∀ e ∈ a, Q e = false) (hb : ∀ e ∈ b, P e = false) :
    Precedes P Q (a ++ b) := by
  intro i j hPi hQj
  obtain ⟨i, hilt⟩ := i
  obtain ⟨j, hjlt⟩ := j
  show i < j
  have hlen : (a ++ b).length = a.length + b.length :=
    List.length_append a b
  have hi : i < a.length := by
    by_contra hge
    push_neg at hge
    rw [List.get_eq_getElem, List.getElem_append_right hge] at hPi
    rw [hb _ (List.getElem_mem (by omega))] at hPi
    exact Bool.noConfusion hPi
  have hj : a.length ≤ j := by
    by_contra hlt
    push_neg at hlt
    rw [List.get_eq_getElem, List.getElem_append_left hlt] at hQj
    rw [ha _ (List.getElem_mem hlt)] at hQj
    exact Bool.noConfusion hQj
  omega

theorem shuffle_fetch_events (dashUids foldUids : List String)
    (body : List Ev)
    (h : Shuffle (dashUids.map (fetchTaskEvs .dash) ++
      foldUids.map (fetchTaskEvs .fold)) body) :
    ∀ e ∈ body, isFetchEv e = true := by
  intro e he
  rcases Shuffle.mem_of _ _ h e he with ⟨l, hl, hel⟩
  rcases List.mem_append.mp hl with h1 | h1 <;>
  · rcases List.mem_map.mp h1 with ⟨u, _, rfl⟩
    rcases List.mem_cons.mp hel with rfl | hel2
    · rfl
    · rcases List.mem_cons.mp hel2 with rfl | hel3
      · rfl
      · simp at hel3

theorem shuffle_imp_events (k : EKind) (uids : List String) (b : List Ev)
    (h : Shuffle (uids.map (impTaskEvs k)) b) :
    ∀ e ∈ b, isImpEvOf k e = true := by
  intro e he
  rcases Shuffle.mem_of _ _ h e he with ⟨l, hl, hel⟩
  rcases List.mem_map.mp hl with ⟨u, _, rfl⟩
  rcases List.mem_cons.mp hel with rfl | hel2
  · simp [isImpEvOf]
  · rcases List.mem_cons.mp hel2 with rfl | hel3
    · simp [isImpEvOf]
    · simp at hel3

theorem isExportEv_of_isFetchEv (e : Ev) (h : isFetchEv e = true) :
    isExportEv e = true := by
  cases e <;> first | rfl | simp [isFetchEv] at h

theorem isDsExportEv_false_of_isFetchEv (e : Ev) (h : isFetchEv e = true) :
    isDsExportEv e = false := by
  cases e <;> first | rfl | simp [isFetchEv] at h

theorem isImportEv_false_of_isExportEv (e : Ev) (h : isExportEv e = true) :
    isImportEv e = false := by
  cases e <;> first | rfl | simp [isExportEv] at h

theorem isExportEv_false_of_isImportEv (e : Ev) (h : isImportEv e = true) :
    isExportEv e = false := by
  cases e <;> first | rfl | simp [isImportEv] at h

theorem isImportEv_of_isImpEvOf (k : EKind) (e : Ev)
    (h : isImpEvOf k e = true) : isImportEv e = true := by
  cases e <;> first | rfl | simp [isImpEvOf] at h

theorem isDashImpStart_false_of_export (e : Ev) (h : isExportEv e = true) :
    isDashImpStart e = false := by
  cases e <;> first | rfl | simp [isExportEv] at h

theorem isDashImpStart_false_of_fold (e : Ev)
    (h : isImpEvOf .fold e = true) : isDashImpStart e = false := by
  cases e <;> try rfl
  rename_i k u
  cases k with
  | dash => simp [isImpEvOf] at h
  | fold => rfl

theorem isFoldImpDone_false_of_dash (e : Ev)
    (h : isImpEvOf .dash e = true) : isFoldImpDone e = false := by
  cases e <;> try rfl
  rename_i k u
  cases k with
  | dash => rfl
  | fold => simp [isImpEvOf] at h

theorem export_trace_all_export (dashUids foldUids dsUids : List String)
    (t : List Ev) (h : IsExportTrace dashUids foldUids dsUids t) :
    ∀ e ∈ t, isExportEv e = true := by
  rcases h with ⟨body, hs, rfl⟩
  intro e he
  rcases List.mem_cons.mp he with rfl | he
  · rfl
  rcases List.mem_cons.mp he with rfl | he
  · rfl
  rcases List.mem_append.mp he with hb | hd
  · exact isExportEv_of_isFetchEv e (shuffle_fetch_events _ _ _ hs e hb)
  · rcases List.mem_cons.mp hd with rfl | hd
    · rfl
    rcases List.mem_cons.mp hd with rfl | hd
    · rfl
    rcases List.mem_map.mp hd with ⟨u, _, rfl⟩
    rfl

theorem import_trace_all_import (foldUids dashUids dsUids : List String)
    (t : List Ev) (h : IsImportTrace foldUids dashUids dsUids t) :
    ∀ e ∈ t, isImportEv e = true := by
  rcases h with ⟨fb, db, hf, hd, rfl⟩
  intro e he
  rcases List.mem_append.mp he with h1 | h2
  · exact isImportEv_of_isImpEvOf .fold e
      (shuffle_imp_events .fold foldUids fb hf e h1)
  rcases List.mem_append.mp h2 with h1 | h1
  · exact isImportEv_of_isImpEvOf .dash e
      (shuffle_imp_events .dash dashUids db hd e h1)
  rcases List.mem_cons.mp h1 with rfl | h1
  · rfl
  rcases List.mem_map.mp h1 with ⟨u, _, rfl⟩
  rfl

/-! ### C7: the phase structure of export -/

/-- C7 counterexample: with one dashboard `d` and one folder `f`, the trace
in which the folder fetch task runs entirely before the dashboard fetch
task is a legal export trace — both task groups are spawned into the same
`handles` vector and joined only once, at lines 170-172 — and it violates
the claimed barrier that no folder fetch starts before every dashboard
fetch has completed. -/
theorem export_no_dash_fold_barrier :
    IsExportTrace ["d"] ["f"] []
      [.mkdir "dashboards", .mkdir "folders",
       .fetchStart .fold "f", .fetchDone .fold "f",
       .fetchStart .dash "d", .fetchDone .dash "d",
       .dsExportList, .mkdir "datasources"] ∧
    ¬ Precedes isDashFetchDone isFoldFetchStart
      [.mkdir "dashboards", .mkdir "folders",
       .fetchStart .fold "f", .fetchDone .fold "f",
       .fetchStart .dash "d", .fetchDone .dash "d",
       .dsExportList, .mkdir "datasources"] := by
  constructor
  · refine ⟨[.fetchStart .fold "f", .fetchDone .fold "f",
      .fetchStart .dash "d", .fetchDone .dash "d"], ?_, rfl⟩
    exact Shuffle.step
      [[Ev.fetchStart .dash "d", Ev.fetchDone .dash "d"]]
      (Ev.fetchStart .fold "f") [Ev.fetchDone .fold "f"] [] _
      (Shuffle.step
        [[Ev.fetchStart .dash "d", Ev.fetchDone .dash "d"]]
        (Ev.fetchDone .fold "f") [] [] _
        (Shuffle.step [] (Ev.fetchStart .dash "d")
          [Ev.fetchDone .dash "d"] [[]] _
          (Shuffle.step [] (Ev.fetchDone .dash "d") [] [[]] _
            (Shuffle.done [[], []] (by simp)))))
  · decide

/-- C7 (amended): export first completes the two directory creations, then
runs the dashboard and folder fetch+save tasks as one combined concurrent
group joined at a single barrier, and only after that joint barrier does
the sequential datasource fetch+save run (every fetch event precedes every
datasource-export event).  There is however no barrier between the
dashboard tasks and the folder tasks: a folder fetch may start before the
dashboard fetches complete, as the counterexample shows. -/
theorem export_phase_order (dashUids foldUids dsUids : List String)
    (t : List Ev) (h : IsExportTrace dashUids foldUids dsUids t) :
    t.take 2 = [.mkdir "dashboards", .mkdir "folders"] ∧
    Precedes isFetchEv isDsExportEv t := by
  rcases h with ⟨body, hs, rfl⟩
  refine ⟨rfl, ?_⟩
  have hres := precedes_of_append isFetchEv isDsExportEv
    (Ev.mkdir "dashboards" :: Ev.mkdir "folders" :: body)
    (dsExportEvs dsUids) ?_ ?_
  · exact hres
  · intro e he
    rcases List.mem_cons.mp he with rfl | he
    · decide
    rcases List.mem_cons.mp he with rfl | he
    · decide
    exact isDsExportEv_false_of_isFetchEv e
      (shuffle_fetch_events _ _ _ hs e he)
  · intro e he
    rcases List.mem_cons.mp he with rfl | he
    · rfl
    rcases List.mem_cons.mp he with rfl | he
    · rfl
    rcases List.mem_map.mp he with ⟨u, _, rfl⟩
    rfl

/-- C7 witness: the sequential schedule of one dashboard, one folder and
one datasource is an export trace, and on it the directory creations come
first and all fetch events precede the datasource phase. -/
theorem export_phase_order_witness :
    ([Ev.mkdir "dashboards", Ev.mkdir "folders",
      Ev.fetchStart .dash "d", Ev.fetchDone .dash "d",
      Ev.fetchStart .fold "f", Ev.fetchDone .fold "f",
      Ev.dsExportList, Ev.mkdir "datasources",
      Ev.dsExportSave "s"].take 2 =
      [Ev.mkdir "dashboards", Ev.mkdir "folders"]) ∧
    Precedes isFetchEv isDsExportEv
      [Ev.mkdir "dashboards", Ev.mkdir "folders",
       Ev.fetchStart .dash "d", Ev.fetchDone .dash "d",
       Ev.fetchStart .fold "f", Ev.fetchDone .fold "f",
       Ev.dsExportList, Ev.mkdir "datasources",
       Ev.dsExportSave "s"] :=
  export_phase_order ["d"] ["f"] ["s"] _
    ⟨[Ev.fetchStart .dash "d", Ev.fetchDone .dash "d",
      Ev.fetchStart .fold "f", Ev.fetchDone .fold "f"],
      shuffle_seq _, rfl⟩

/-! ### C6: the cross-phase ordering of the whole run -/

/-- C6: in every trace of the whole run, every export event precedes
every import event (import work starts only after the entire export has
completed), and every folder import task's completion precedes every
dashboard import task's start — the folder tasks are drained and awaited
at lines 292-294 before any dashboard import task is spawned. -/
theorem import_ordering (eDash eFold eDs iFold iDash iDs : List String)
    (t : List Ev) (h : IsMainTrace eDash eFold eDs iFold iDash iDs t) :
    Precedes isExportEv isImportEv t ∧
    Precedes isFoldImpDone isDashImpStart t := by
  rcases h with ⟨et, it, het, hit, rfl⟩
  obtain ⟨fb, db, hf, hd, rfl⟩ := hit
  constructor
  · apply precedes_of_append
    · intro e he
      exact isImportEv_false_of_isExportEv e
        (export_trace_all_export _ _ _ _ het e he)
    · intro e he
      exact isExportEv_false_of_isImportEv e
        (import_trace_all_import iFold iDash iDs _
          ⟨fb, db, hf, hd, rfl⟩ e he)
  · have heq : et ++ (fb ++ (db ++ dsImportEvs iDs)) =
        (et ++ fb) ++ (db ++ dsImportEvs iDs) :=
      (List.append_assoc et fb _).symm
    rw [heq]
    apply precedes_of_append
    · intro e he
      rcases List.mem_append.mp he with h1 | h1
      · exact isDashImpStart_false_of_export e
          (export_trace_all_export _ _ _ _ het e h1)
      · exact isDashImpStart_false_of_fold e
          (shuffle_imp_events .fold iFold fb hf e h1)
    · intro e he
      rcases List.mem_append.mp he with h1 | h1
      · exact isFoldImpDone_false_of_dash e
          (shuffle_imp_events .dash iDash db hd e h1)
      · rcases List.mem_cons.mp h1 with rfl | h1
        · rfl
        rcases List.mem_map.mp h1 with ⟨u, _, rfl⟩
        rfl

/-- C6 witness: a concrete full run — export of one dashboard, one folder
and one datasource followed by import of one folder, one dashboard and one
datasource, each phase sequentially scheduled — ordered as the claim
states. -/
theorem import_ordering_witness :
    Precedes isExportEv isImportEv
      [Ev.mkdir "dashboards", Ev.mkdir "folders",
       Ev.fetchStart .dash "d", Ev.fetchDone .dash "d",
       Ev.fetchStart .fold "f", Ev.fetchDone .fold "f",
       Ev.dsExportList, Ev.mkdir "datasources", Ev.dsExportSave "s",
       Ev.impStart .fold "f2", Ev.impDone .fold "f2",
       Ev.impStart .dash "d2", Ev.impDone .dash "d2",
       Ev.dsImportList, Ev.dsImportSend "s2"] ∧
    Precedes isFoldImpDone isDashImpStart
      [Ev.mkdir "dashboards", Ev.mkdir "folders",
       Ev.fetchStart .dash "d", Ev.fetchDone .dash "d",
       Ev.fetchStart .fold "f", Ev.fetchDone .fold "f",
       Ev.dsExportList, Ev.mkdir "datasources", Ev.dsExportSave "s",
       Ev.impStart .fold "f2", Ev.impDone .fold "f2",
       Ev.impStart .dash "d2", Ev.impDone .dash "d2",
       Ev.dsImportList, Ev.dsImportSend "s2"] :=
  import_ordering ["d"] ["f"] ["s"] ["f2"] ["d2"] ["s2"] _
    ⟨[Ev.mkdir "dashboards", Ev.mkdir "folders",
        Ev.fetchStart .dash "d", Ev.fetchDone .dash "d",
        Ev.fetchStart .fold "f", Ev.fetchDone .fold "f",
        Ev.dsExportList, Ev.mkdir "datasources", Ev.dsExportSave "s"],
     [Ev.impStart .fold "f2", Ev.impDone .fold "f2",
        Ev.impStart .dash "d2", Ev.impDone .dash "d2",
        Ev.dsImportList, Ev.dsImportSend "s2"],
     ⟨[Ev.fetchStart .dash "d", Ev.fetchDone .dash "d",
         Ev.fetchStart .fold "f", Ev.fetchDone .fold "f"],
       shuffle_seq _, rfl⟩,
     ⟨[Ev.impStart .fold "f2", Ev.impDone .fold "f2"],
       [Ev.impStart .dash "d2", Ev.impDone .dash "d2"],
       shuffle_seq _, shuffle_seq _, rfl⟩,
     rfl⟩

end GrafanaExim
